import Mathlib

/-!
Verification development for the contract-intelligence extraction pipeline
(`backend/app/utils/pdf_parser.py` together with the pydantic models of
`backend/app/models.py`).

The pipeline is a pure computation over the document text (PDF decoding is an
upstream collaborator), so it is embedded as Lean functions over `String`.
Conventions used throughout:

* Python `re` patterns are embedded through a small backtracking engine
  (`RE` / `mtch` / `findAll`) whose candidate order reproduces Python's
  leftmost scan, greedy quantifiers and left-to-right alternation.  `\s`, `\w`
  and case folding are modelled over ASCII, which covers every pattern and
  input considered here.  The engine is fuelled; the fuel supplied by
  `findAll` strictly exceeds the backtracking depth reachable by the small
  patterns of this code base, and no theorem below depends on the fuel bound.
* Python `float` amounts are modelled as `ℚ` (every amount handled by the
  code is a short decimal literal, and the only arithmetic is sum, product
  and one guarded division).  `float(s)` on a digitless string raises, which
  is modelled by `parseAmount : String → Option ℚ`.
* pydantic v2 `BaseModel` semantics that matter here: constructor keyword
  arguments that name no declared field are silently ignored (default
  `extra` behaviour); assigning an undeclared attribute raises; a model
  instance is always truthy while `None`, `0.0`, `""`, empty dict and empty
  list are falsy.  Fallible extractors therefore return `Option`.
-/

-- The arithmetic of `ℚ` is used in computations that theorems below
-- evaluate on concrete inputs; these core operations are irreducible by
-- default, which only hides their (perfectly computable) definitions from
-- definitional unfolding.
attribute [local semireducible] Rat.add Rat.mul Rat.inv

/-! ## Character classes and basic string helpers -/

/-- Python `\s` over ASCII: space, tab, newline, carriage return, vertical
tab, form feed. -/
def pyWs (c : Char) : Bool :=
  c == ' ' || c == '\t' || c == '\n' || c == '\r' || c == '\x0b' || c == '\x0c'

/-- Python `\w` over ASCII: letters, digits, underscore. -/
def pyWord (c : Char) : Bool :=
  c.isAlphanum || c == '_'

/-- Python `str.strip()` on a character list. -/
def pyStripL (l : List Char) : List Char :=
  ((l.dropWhile pyWs).reverse.dropWhile pyWs).reverse

/-- Python `str.strip()`. -/
def pyStrip (s : String) : String :=
  String.mk (pyStripL s.toList)

/-- Collapse whitespace runs to a single space (`re.sub(r'\s+', ' ', ·)`);
the flag records whether the previous character was whitespace. -/
def collapseGo : Bool → List Char → List Char
  | _, [] => []
  | prevWs, c :: cs =>
    if pyWs c then
      if prevWs then collapseGo true cs else ' ' :: collapseGo true cs
    else c :: collapseGo false cs

/-- Model of `re.sub(r'\s+', ' ', s.replace('\n', ' ')).strip()` (replacing
newlines first is subsumed by collapsing, since `\n` is whitespace). -/
def wsNormalize (s : String) : String :=
  String.mk (pyStripL (collapseGo false s.toList))

/-- ASCII lowercasing of a string. -/
def toLowerStr (s : String) : String :=
  String.mk (s.toList.map Char.toLower)

/-- Check that `hay` starts with `need`, comparing case-insensitively. -/
def startsCI : List Char → List Char → Bool
  | [], _ => true
  | _ :: _, [] => false
  | n :: ns, h :: hs => (n.toLower == h.toLower) && startsCI ns hs

/-- Check that `hay` contains `need` as a contiguous run (case-insensitive).
Together with `startsCI` this models `re.search` on an alternation of plain
literals, and Python's `needle in hay` on lowercased strings. -/
def hasSubCI (need : List Char) : List Char → Bool
  | [] => startsCI need []
  | c :: cs => startsCI need (c :: cs) || hasSubCI need cs

/-- Case-insensitive substring containment on strings. -/
def containsCI (hay need : String) : Bool :=
  hasSubCI need.toList hay.toList

/-- First-occurrence deduplication; models the set used at
`list(set(company_matches + broad_matches))`.  Python's `set` iteration
order is hash-dependent and unspecified; no theorem below depends on the
order of the deduplicated list. -/
def dedupGo (seen : List String) : List String → List String
  | [] => []
  | x :: xs => if seen.contains x then dedupGo seen xs else x :: dedupGo (x :: seen) xs

/-- Python `int` on a digit-only capture group. -/
def natOfDigits (s : String) : Nat :=
  s.toList.foldl (fun a c => a * 10 + (c.toNat - 48)) 0

/-- Drop every comma (`s.replace(',', '')`). -/
def stripCommas (s : String) : String :=
  String.mk (s.toList.filter (fun c => !(c == ',')))

/-- Split a character list at the first dot, if any. -/
def splitDot : List Char → List Char × Option (List Char)
  | [] => ([], none)
  | c :: cs =>
    if c == '.' then ([], some cs)
    else
      let r := splitDot cs
      (c :: r.1, r.2)

/-- Numeric value of a digit list. -/
def natOfDigitList (l : List Char) : Nat :=
  l.foldl (fun a c => a * 10 + (c.toNat - 48)) 0

/-- Model of Python `float(s.replace(',', ''))` on the capture groups of the
amount patterns (`[0-9,]+\.?[0-9]*` and `[0-9.]+`): `none` exactly when
`float` raises `ValueError` (no digit at all, e.g. `","` or `"."`). -/
def parseAmount (s : String) : Option ℚ :=
  let l := (stripCommas s).toList
  let p := splitDot l
  let ip := p.1
  let fp := (p.2.getD []).takeWhile Char.isDigit
  let fpOK := match p.2 with
    | none => true
    | some f => f.all Char.isDigit
  if ip.all Char.isDigit && fpOK && !(ip.isEmpty && fp.isEmpty) then
    some (mkRat (natOfDigitList ip * 10 ^ fp.length + natOfDigitList fp) (10 ^ fp.length))
  else none

/-! ## A small backtracking regex engine

Covers exactly the constructs used by the parser's patterns: literals,
single-character classes, `.`, concatenation, alternation, greedy `*`, `+`,
`?` and `{lo,hi}`, capture groups, `^`, `$` and `\b`.  `mtch` returns every
way the expression can match a prefix of the input, in Python's backtracking
preference order, so the head of the list is Python's match. -/

/-- Flags of a compiled pattern: case insensitivity and multiline mode. -/
structure REFlags where
  ci : Bool
  ml : Bool

inductive RE where
  | eps
  | lit (s : List Char)
  | cls (p : Char → Bool)
  | dot
  | seq (a b : RE)
  | alt (a b : RE)
  | star (r : RE)
  | opt (r : RE)
  | grp (r : RE)
  | bol
  | eol
  | wb

/-- Match state: the previous character (for `^`/`\b`), the remaining input,
and the capture groups collected so far. -/
abbrev MSt := Option Char × List Char × List (List Char)

/-- Consume a literal, case-insensitively when `ci` is set. -/
def litRun (ci : Bool) : List Char → Option Char → List Char →
    Option (Option Char × List Char)
  | [], pv, rest => some (pv, rest)
  | c :: cs, _, x :: xs =>
    if c == x || (ci && c.toLower == x.toLower) then litRun ci cs (some x) xs else none
  | _ :: _, _, [] => none

/-- Single-character class test; under IGNORECASE a class matches a
character if it matches either casing of it, as in Python. -/
def clsTest (ci : Bool) (p : Char → Bool) (c : Char) : Bool :=
  p c || (ci && (p c.toLower || p c.toUpper))

/-- Word character, for `\b`. -/
def isWordCh (c : Char) : Bool := c.isAlphanum || c == '_'

/-- All matches of `re` against a prefix of `rest`, in backtracking
preference order.  Recursion is structural on the fuel; `star` only iterates
on strict progress (every starred subexpression of the patterns below
consumes at least one character, so this agrees with Python). -/
def mtch (fl : REFlags) : Nat → RE → Option Char → List Char →
    List (List Char) → List MSt
  | 0, _, _, _, _ => []
  | fu + 1, re, pv, rest, caps =>
    match re with
    | .eps => [(pv, rest, caps)]
    | .lit s =>
      match litRun fl.ci s pv rest with
      | some (pv2, rest2) => [(pv2, rest2, caps)]
      | none => []
    | .cls p =>
      match rest with
      | [] => []
      | c :: cs => if clsTest fl.ci p c then [(some c, cs, caps)] else []
    | .dot =>
      match rest with
      | [] => []
      | c :: cs => if c == '\n' then [] else [(some c, cs, caps)]
    | .seq a b =>
      (mtch fl fu a pv rest caps).flatMap (fun st => mtch fl fu b st.1 st.2.1 st.2.2)
    | .alt a b => mtch fl fu a pv rest caps ++ mtch fl fu b pv rest caps
    | .star r =>
      ((mtch fl fu r pv rest caps).flatMap (fun st =>
        if st.2.1.length < rest.length then mtch fl fu (.star r) st.1 st.2.1 st.2.2
        else [])) ++ [(pv, rest, caps)]
    | .opt r => mtch fl fu r pv rest caps ++ [(pv, rest, caps)]
    | .grp r =>
      (mtch fl fu r pv rest caps).map (fun st =>
        (st.1, st.2.1, st.2.2 ++ [rest.take (rest.length - st.2.1.length)]))
    | .bol =>
      if pv.isNone || (fl.ml && pv == some '\n') then [(pv, rest, caps)] else []
    | .eol =>
      if (if fl.ml then rest.isEmpty || rest.head? == some '\n'
          else rest.isEmpty || rest == ['\n']) then [(pv, rest, caps)] else []
    | .wb =>
      let lw := match pv with | some c => isWordCh c | none => false
      let rw := match rest with | c :: _ => isWordCh c | [] => false
      if lw != rw then [(pv, rest, caps)] else []

/-- Fuel bound comfortably above the backtracking depth reachable by the
patterns below on the given input length. -/
def fuelFor (n : Nat) : Nat := (n + 2) * 400

/-- Python's anchored match attempt at the current position: the first
solution in preference order. -/
def mtchTop (fl : REFlags) (re : RE) (pv : Option Char) (rest : List Char) : Option MSt :=
  (mtch fl (fuelFor rest.length) re pv rest []).head?

/-- Scan of `re.findall`: try an anchored match at each position, emit the
capture groups (or the whole match when the pattern has no group), continue
after each match. -/
def scanAll (fl : REFlags) (re : RE) : Nat → Option Char → List Char →
    List (List (List Char))
  | 0, _, _ => []
  | fu + 1, pv, rest =>
    match mtchTop fl re pv rest with
    | some (pv2, rest2, caps) =>
      let whole := rest.take (rest.length - rest2.length)
      let item := if caps.isEmpty then [whole] else caps
      if rest2.length < rest.length then
        item :: scanAll fl re fu pv2 rest2
      else
        -- zero-width match: emit and advance one character
        item :: (match rest with
                 | [] => []
                 | c :: cs => scanAll fl re fu (some c) cs)
    | none =>
      match rest with
      | [] => []
      | c :: cs => scanAll fl re fu (some c) cs

/-- Model of `pattern.findall(text)`, as a list of capture-group lists. -/
def findAll (fl : REFlags) (re : RE) (s : String) : List (List String) :=
  (scanAll fl re (s.length + 1) none s.toList).map (fun caps => caps.map String.mk)

/-- Model of `pattern.search(text)`: the capture groups of the first match. -/
def searchRe (fl : REFlags) (re : RE) (s : String) : Option (List String) :=
  (findAll fl re s).head?

/-- First capture group (or the whole match for group-less patterns). -/
def g0 (caps : List String) : String := caps.head?.getD ""

/-- Flags: case-sensitive, case-insensitive, case-insensitive multiline. -/
def reCS : REFlags := ⟨false, false⟩
def reCI : REFlags := ⟨true, false⟩
def reCIML : REFlags := ⟨true, true⟩

/-- Combinators used when transcribing patterns. -/
def rlit (s : String) : RE := .lit s.toList

def rcat : List RE → RE
  | [] => .eps
  | [r] => r
  | r :: rs => .seq r (rcat rs)

def ralt : List RE → RE
  | [] => .eps
  | [r] => r
  | r :: rs => .alt r (ralt rs)

/-- Greedy `+`. -/
def rplus (r : RE) : RE := .seq r (.star r)

/-- Exactly `n` copies. -/
def repN (r : RE) : Nat → RE
  | 0 => .eps
  | n + 1 => .seq r (repN r n)

/-- Greedy `{0,n}` as nested options. -/
def repUpTo (r : RE) : Nat → RE
  | 0 => .eps
  | n + 1 => .opt (.seq r (repUpTo r n))

/-- Greedy `{lo,hi}`. -/
def repRange (r : RE) (lo hi : Nat) : RE := .seq (repN r lo) (repUpTo r (hi - lo))

/-- Greedy `{2,}`. -/
def rep2Plus (r : RE) : RE := .seq r (.seq r (.star r))

/-! ## Character classes used by the parser's patterns -/

def chDigit (c : Char) : Bool := c.isDigit
/-- Python `[0-9,]` (amount bodies). -/
def chAmount (c : Char) : Bool := c.isDigit || c == ','
/-- Python `[0-9.]` (percentage bodies). -/
def chNumDot (c : Char) : Bool := c.isDigit || c == '.'
/-- Python `[A-Za-z\s]`. -/
def chAlphaSp (c : Char) : Bool := c.isAlpha || pyWs c
/-- Python `[A-Za-z\s&]` (company names). -/
def chCompany (c : Char) : Bool := c.isAlpha || pyWs c || c == '&'
/-- Python `[A-Za-z\s&,.-]` (broad company names). -/
def chBroad (c : Char) : Bool :=
  c.isAlpha || pyWs c || c == '&' || c == ',' || c == '.' || c == '-'
/-- Python `[\s\w]`. -/
def chWsWord (c : Char) : Bool := pyWs c || pyWord c
/-- Python `[\s:]`. -/
def chWsColon (c : Char) : Bool := pyWs c || c == ':'
/-- Python `[\s,]`. -/
def chWsComma (c : Char) : Bool := pyWs c || c == ','
/-- Python `[A-Za-z\s,]` (address tails). -/
def chAlphaSpComma (c : Char) : Bool := c.isAlpha || pyWs c || c == ','
/-- Python `[-.\s]` (phone separators). -/
def chSep (c : Char) : Bool := c == '-' || c == '.' || pyWs c
/-- Python `[\s\-:]` (service-rate separators). -/
def chSvcSep (c : Char) : Bool := pyWs c || c == '-' || c == ':'
/-- Python `[A-Za-z0-9._%+-]` (email local part). -/
def chEmailLocal (c : Char) : Bool :=
  c.isAlphanum || c == '.' || c == '_' || c == '%' || c == '+' || c == '-'
/-- Python `[A-Za-z0-9.-]` (email domain). -/
def chEmailDom (c : Char) : Bool := c.isAlphanum || c == '.' || c == '-'
/-- Python `[A-Z|a-z]` (email top-level domain; the source class literally contains
a pipe character). -/
def chTld (c : Char) : Bool := c.isAlpha || c == '|'
/-- Python `[A-Za-z0-9\s,.-]` (address body). -/
def chAddrBody (c : Char) : Bool :=
  c.isAlphanum || pyWs c || c == ',' || c == '.' || c == '-'
/-- Python `[A-Z]`; under IGNORECASE this matches any letter. -/
def chUpper (c : Char) : Bool := c.isUpper
/-- Python `[^,]`. -/
def chNotComma (c : Char) : Bool := !(c == ',')
/-- Python `[^.\n]`. -/
def chNotDotNl (c : Char) : Bool := !(c == '.') && !(c == '\n')
/-- Python `[\s#:]`. -/
def chWsHashColon (c : Char) : Bool := pyWs c || c == '#' || c == ':'
/-- Python `[A-Z0-9-]` (identifiers, IGNORECASE). -/
def chAcctId (c : Char) : Bool := c.isUpper || c.isDigit || c == '-'
/-- Python `[A-Za-z0-9-]`. -/
def chAcctAlnum (c : Char) : Bool := c.isAlphanum || c == '-'
/-- Python `[A-Z0-9]` (IGNORECASE). -/
def chUpperDigit (c : Char) : Bool := c.isUpper || c.isDigit
/-- Python `[- ]`. -/
def chDashSp (c : Char) : Bool := c == '-' || c == ' '

/-! ## Transcribed patterns

Each definition carries the exact Python pattern it embeds (all compiled
with `re.IGNORECASE` unless noted otherwise). -/

/-- Python `(?:LLC|Inc|Corp|Corporation|Ltd|Limited|Company|Co\.|Partners)`. -/
def suffixAlt : RE :=
  ralt [rlit "LLC", rlit "Inc", rlit "Corp", rlit "Corporation", rlit "Ltd",
        rlit "Limited", rlit "Company", rlit "Co.", rlit "Partners"]

/-- Python `([A-Za-z\s&]+(?:LLC|Inc|Corp|Corporation|Ltd|Limited|Company|Co\.|Partners))`. -/
def companyNameRE : RE := .grp (.seq (rplus (.cls chCompany)) suffixAlt)

/-- Python `(?:\*\*Consultant:\*\*|Consultant:)\s*\n?(…company…)`. -/
def consultantRE : RE :=
  rcat [.alt (rlit "**Consultant:**") (rlit "Consultant:"),
        .star (.cls pyWs), .opt (rlit "\n"), companyNameRE]

/-- Python `(?:\*\*Service Provider:\*\*|Service Provider:)\s*\n?(…company…)`. -/
def serviceProviderRE : RE :=
  rcat [.alt (rlit "**Service Provider:**") (rlit "Service Provider:"),
        .star (.cls pyWs), .opt (rlit "\n"), companyNameRE]

/-- Python `(?:\*\*Client:\*\*|Client:)\s*\n?(…company…)`. -/
def clientRE : RE :=
  rcat [.alt (rlit "**Client:**") (rlit "Client:"),
        .star (.cls pyWs), .opt (rlit "\n"), companyNameRE]

/-- Python `\b[A-Za-z0-9._%+-]+@[A-Za-z0-9.-]+\.[A-Z|a-z]{2,}\b` (no flag). -/
def emailsFreeRE : RE :=
  rcat [.wb, rplus (.cls chEmailLocal), rlit "@", rplus (.cls chEmailDom),
        rlit ".", rep2Plus (.cls chTld), .wb]

/-- Python `\(?\d{3}\)?[-.\s]?\d{3}[-.\s]?\d{4}` (no flag). -/
def phonesFreeRE : RE :=
  rcat [.opt (rlit "("), repN (.cls chDigit) 3, .opt (rlit ")"),
        .opt (.cls chSep), repN (.cls chDigit) 3, .opt (.cls chSep),
        repN (.cls chDigit) 4]

/-- Python `(?:Street|St|Avenue|Ave|Road|Rd|Drive|Dr|Lane|Ln|Boulevard|Blvd|Way|Place|Pl)`. -/
def streetSuffix : RE :=
  ralt [rlit "Street", rlit "St", rlit "Avenue", rlit "Ave", rlit "Road",
        rlit "Rd", rlit "Drive", rlit "Dr", rlit "Lane", rlit "Ln",
        rlit "Boulevard", rlit "Blvd", rlit "Way", rlit "Place", rlit "Pl"]

/-- Python `\d+\s+[A-Za-z0-9\s,.-]+(?:Street|…|Pl)[\s,]*[A-Za-z\s,]*\d{5}`. -/
def addrRE : RE :=
  rcat [rplus (.cls chDigit), rplus (.cls pyWs), rplus (.cls chAddrBody),
        streetSuffix, .star (.cls chWsComma), .star (.cls chAlphaSpComma),
        repN (.cls chDigit) 5]

/-- Python `(?:Tax ID|EIN|Federal EIN):\s*(\d{2}-\d{7})`. -/
def taxIdRE : RE :=
  rcat [ralt [rlit "Tax ID", rlit "EIN", rlit "Federal EIN"], rlit ":",
        .star (.cls pyWs),
        .grp (rcat [repN (.cls chDigit) 2, rlit "-", repN (.cls chDigit) 7])]

/-- Python `(?:^|\n|\.\s+)([A-Z][A-Za-z\s&,.-]{3,35}(?:LLC|…|Partners))(?:\s|$|\n|\.)`
(IGNORECASE and MULTILINE). -/
def broadCompanyRE : RE :=
  rcat [ralt [.bol, rlit "\n", .seq (rlit ".") (rplus (.cls pyWs))],
        .grp (rcat [.cls chUpper, repRange (.cls chBroad) 3 35, suffixAlt]),
        ralt [.cls pyWs, .eol, rlit "\n", rlit "."]]

/-- Python `(?:Client|Customer|Purchaser):\s*([A-Z][A-Za-z\s&,.-]{3,35}(?:LLC|…))`. -/
def custLabelRE : RE :=
  rcat [ralt [rlit "Client", rlit "Customer", rlit "Purchaser"], rlit ":",
        .star (.cls pyWs),
        .grp (rcat [.cls chUpper, repRange (.cls chBroad) 3 35, suffixAlt])]

/-- Python `(?:Agreement between|Contract between)\s+[^,]+,\s*and\s+([A-Z][A-Za-z\s&,.-]{3,35}(?:LLC|…))`. -/
def agreementRE : RE :=
  rcat [.alt (rlit "Agreement between") (rlit "Contract between"),
        rplus (.cls pyWs), rplus (.cls chNotComma), rlit ",",
        .star (.cls pyWs), rlit "and", rplus (.cls pyWs),
        .grp (rcat [.cls chUpper, repRange (.cls chBroad) 3 35, suffixAlt])]

/-- Python `(?:with|for)\s+([A-Z][A-Za-z\s&,.-]{3,35}(?:LLC|…))(?:\s|$|\n|\.)`
(IGNORECASE, no MULTILINE). -/
def withForRE : RE :=
  rcat [.alt (rlit "with") (rlit "for"), rplus (.cls pyWs),
        .grp (rcat [.cls chUpper, repRange (.cls chBroad) 3 35, suffixAlt]),
        ralt [.cls pyWs, .eol, rlit "\n", rlit "."]]

/-- Python `[0-9,]+\.?[0-9]*` — the amount body shared by the currency patterns. -/
def amtBody : RE :=
  rcat [rplus (.cls chAmount), .opt (rlit "."), .star (.cls chDigit)]

/-- Python `\$([0-9,]+\.?[0-9]*)`. -/
def currencyRE : RE := .seq (rlit "$") (.grp amtBody)

/-- Python `(?:Consulting|Assessment|Training|Support|Service|Management)`. -/
def svcSuffix : RE :=
  ralt [rlit "Consulting", rlit "Assessment", rlit "Training", rlit "Support",
        rlit "Service", rlit "Management"]

/-- Python `([A-Za-z\s]+(?:Consulting|…|Management))[\s\-:]*\$([0-9,]+\.?[0-9]*)/?(hour|fixed|month)?`. -/
def serviceRateRE : RE :=
  rcat [.grp (.seq (rplus (.cls chAlphaSp)) svcSuffix), .star (.cls chSvcSep),
        rlit "$", .grp amtBody, .opt (rlit "/"),
        .opt (.grp (ralt [rlit "hour", rlit "fixed", rlit "month"]))]

/-- Python `([A-Za-z\s]+):\s*([0-9]+)\s*hours?\s*\(\$([0-9,]+\.?[0-9]*)\)`. -/
def hourlyRE : RE :=
  rcat [.grp (rplus (.cls chAlphaSp)), rlit ":", .star (.cls pyWs),
        .grp (rplus (.cls chDigit)), .star (.cls pyWs), rlit "hour",
        .opt (rlit "s"), .star (.cls pyWs), rlit "($", .grp amtBody, rlit ")"]

/-- Python `(?:Monthly|Per Month)[\s\w]*Total[\s:]*\$([0-9,]+\.?[0-9]*)`. -/
def monthlyTotRE : RE :=
  rcat [.alt (rlit "Monthly") (rlit "Per Month"), .star (.cls chWsWord),
        rlit "Total", .star (.cls chWsColon), rlit "$", .grp amtBody]

/-- Python `(?:Setup|Initial|Project)[\s\w]*Fee[\s:]*\$([0-9,]+\.?[0-9]*)`. -/
def setupRE : RE :=
  rcat [ralt [rlit "Setup", rlit "Initial", rlit "Project"],
        .star (.cls chWsWord), rlit "Fee", .star (.cls chWsColon), rlit "$",
        .grp amtBody]

/-- Python `(?:Annual|Yearly)[\s\w]*(?:Value|Total|Amount)[\s:]*\$([0-9,]+\.?[0-9]*)`. -/
def annualRE : RE :=
  rcat [.alt (rlit "Annual") (rlit "Yearly"), .star (.cls chWsWord),
        ralt [rlit "Value", rlit "Total", rlit "Amount"],
        .star (.cls chWsColon), rlit "$", .grp amtBody]

/-- Python `(?:Term|Duration|Contract Period):\s*(\d+)\s*months?`. -/
def contractTermRE : RE :=
  rcat [ralt [rlit "Term", rlit "Duration", rlit "Contract Period"], rlit ":",
        .star (.cls pyWs), .grp (rplus (.cls chDigit)), .star (.cls pyWs),
        rlit "month", .opt (rlit "s")]

/-- Python `Net\s+(\d+)\s+days?`. -/
def payTermsRE : RE :=
  rcat [rlit "Net", rplus (.cls pyWs), .grp (rplus (.cls chDigit)),
        rplus (.cls pyWs), rlit "day", .opt (rlit "s")]

/-- Python `(?:payment|due)[\s\w]*(\d+)[\s]*(?:days?|months?)`. -/
def altTermsRE : RE :=
  rcat [.alt (rlit "payment") (rlit "due"), .star (.cls chWsWord),
        .grp (rplus (.cls chDigit)), .star (.cls pyWs),
        .alt (.seq (rlit "day") (.opt (rlit "s")))
             (.seq (rlit "month") (.opt (rlit "s")))]

/-- Python `(?:Payment Method|Payment Options?):\s*([^.\n]+)`. -/
def payMethodRE : RE :=
  rcat [.alt (rlit "Payment Method") (.seq (rlit "Payment Option") (.opt (rlit "s"))),
        rlit ":", .star (.cls pyWs), .grp (rplus (.cls chNotDotNl))]

/-- Python `(?:billed|invoiced|charged)[\s\w]*(?:monthly|quarterly|annually|yearly)`. -/
def scheduleRE : RE :=
  rcat [ralt [rlit "billed", rlit "invoiced", rlit "charged"],
        .star (.cls chWsWord),
        ralt [rlit "monthly", rlit "quarterly", rlit "annually", rlit "yearly"]]

/-- Python `(?:late fee|penalty|interest)[\s\w]*([0-9.]+%)`. -/
def lateFeeRE : RE :=
  rcat [ralt [rlit "late fee", rlit "penalty", rlit "interest"],
        .star (.cls chWsWord), .grp (.seq (rplus (.cls chNumDot)) (rlit "%"))]

/-- Python `(?:discount|early payment)[\s\w]*([0-9.]+%)`. -/
def discountRE : RE :=
  rcat [.alt (rlit "discount") (rlit "early payment"), .star (.cls chWsWord),
        .grp (.seq (rplus (.cls chNumDot)) (rlit "%"))]

/-- Python `(?:bank|financial institution)[\s:]*([A-Za-z\s&]+)`. -/
def bankNameRE : RE :=
  rcat [.alt (rlit "bank") (rlit "financial institution"),
        .star (.cls chWsColon), .grp (rplus (.cls chCompany))]

/-- Python `(?:account|acct)[\s#:]*([A-Za-z0-9-]+)`. -/
def acctLooseRE : RE :=
  rcat [.alt (rlit "account") (rlit "acct"), .star (.cls chWsHashColon),
        .grp (rplus (.cls chAcctAlnum))]

/-- Python `(?:routing|aba)[\s#:]*([0-9]{9})`. -/
def routingRE : RE :=
  rcat [.alt (rlit "routing") (rlit "aba"), .star (.cls chWsHashColon),
        .grp (repN (.cls chDigit) 9)]

/-- Python `(?:swift|bic)[\s:]*([A-Z0-9]{8,11})`. -/
def swiftRE : RE :=
  rcat [.alt (rlit "swift") (rlit "bic"), .star (.cls chWsColon),
        .grp (repRange (.cls chUpperDigit) 8 11)]

/-- Python `(?:Account ID|Client Account|Agreement ID):\s*([A-Z0-9-]+)`. -/
def acctNumRE : RE :=
  rcat [ralt [rlit "Account ID", rlit "Client Account", rlit "Agreement ID"],
        rlit ":", .star (.cls pyWs), .grp (rplus (.cls chAcctId))]

/-- Python `Email:\s*([A-Za-z0-9._%+-]+@[A-Za-z0-9.-]+\.[A-Z|a-z]{2,})`. -/
def emailLabelRE : RE :=
  rcat [rlit "Email:", .star (.cls pyWs),
        .grp (rcat [rplus (.cls chEmailLocal), rlit "@", rplus (.cls chEmailDom),
                    rlit ".", rep2Plus (.cls chTld)])]

/-- Python `(?:billing|accounting|finance)[\s\w]*(?:phone|tel)[\s:]*(\+?1?[-.\s]?\(?[0-9]{3}\)?[-.\s]?[0-9]{3}[-.\s]?[0-9]{4})`. -/
def billPhoneRE : RE :=
  rcat [ralt [rlit "billing", rlit "accounting", rlit "finance"],
        .star (.cls chWsWord), .alt (rlit "phone") (rlit "tel"),
        .star (.cls chWsColon),
        .grp (rcat [.opt (rlit "+"), .opt (rlit "1"), .opt (.cls chSep),
                    .opt (rlit "("), repN (.cls chDigit) 3, .opt (rlit ")"),
                    .opt (.cls chSep), repN (.cls chDigit) 3, .opt (.cls chSep),
                    repN (.cls chDigit) 4])]

/-- Python `(?:billing contact|accounts receivable|finance contact)[\s:]*([A-Za-z\s]+)`. -/
def contactRE : RE :=
  rcat [ralt [rlit "billing contact", rlit "accounts receivable",
              rlit "finance contact"],
        .star (.cls chWsColon), .grp (rplus (.cls chAlphaSp))]

/-- Python `(?:Automatic|Auto[- ]?renewal):\s*(\d+)[- ]?month`. -/
def autoRenewRE : RE :=
  rcat [.alt (rlit "Automatic") (rcat [rlit "Auto", .opt (.cls chDashSp), rlit "renewal"]),
        rlit ":", .star (.cls pyWs), .grp (rplus (.cls chDigit)),
        .opt (.cls chDashSp), rlit "month"]

/-- Python `(?:termination|cancellation)[\s\w]*([0-9]+)[\s]*(?:days?|months?)`. -/
def terminationRE : RE :=
  rcat [.alt (rlit "termination") (rlit "cancellation"), .star (.cls chWsWord),
        .grp (rplus (.cls chDigit)), .star (.cls pyWs),
        .alt (.seq (rlit "day") (.opt (rlit "s")))
             (.seq (rlit "month") (.opt (rlit "s")))]

/-- Python `(?:price increase|adjustment)[\s\w]*([0-9.]+%)`. -/
def pricingRE : RE :=
  rcat [.alt (rlit "price increase") (rlit "adjustment"), .star (.cls chWsWord),
        .grp (.seq (rplus (.cls chNumDot)) (rlit "%"))]

/-- Python `(\d+\.?\d*%)\s*(?:uptime|availability)`. -/
def uptimeRE : RE :=
  rcat [.grp (rcat [rplus (.cls chDigit), .opt (rlit "."), .star (.cls chDigit),
                    rlit "%"]),
        .star (.cls pyWs), .alt (rlit "uptime") (rlit "availability")]

/-- Python `(?:hours?|minutes?)` tail of the severity-tier patterns. -/
def hoursMinutes : RE :=
  .alt (.seq (rlit "hour") (.opt (rlit "s"))) (.seq (rlit "minute") (.opt (rlit "s")))

/-- Python `(?:critical|emergency)[\s\w]*([0-9]+)[\s]*(?:hours?|minutes?)`. -/
def criticalRE : RE :=
  rcat [.alt (rlit "critical") (rlit "emergency"), .star (.cls chWsWord),
        .grp (rplus (.cls chDigit)), .star (.cls pyWs), hoursMinutes]

/-- Python `(?:high priority|urgent)[\s\w]*([0-9]+)[\s]*(?:hours?|minutes?)`. -/
def highRE : RE :=
  rcat [.alt (rlit "high priority") (rlit "urgent"), .star (.cls chWsWord),
        .grp (rplus (.cls chDigit)), .star (.cls pyWs), hoursMinutes]

/-- Python `(?:medium|normal)[\s\w]*([0-9]+)[\s]*(?:hours?|minutes?)`. -/
def mediumRE : RE :=
  rcat [.alt (rlit "medium") (rlit "normal"), .star (.cls chWsWord),
        .grp (rplus (.cls chDigit)), .star (.cls pyWs), hoursMinutes]

/-- Python `(?:low priority|routine)[\s\w]*([0-9]+)[\s]*(?:hours?|days?)`. -/
def lowRE : RE :=
  rcat [.alt (rlit "low priority") (rlit "routine"), .star (.cls chWsWord),
        .grp (rplus (.cls chDigit)), .star (.cls pyWs),
        .alt (.seq (rlit "hour") (.opt (rlit "s")))
             (.seq (rlit "day") (.opt (rlit "s")))]

/-- Python `(?:system response|response time)[\s\w]*([0-9.]+)[\s]*(?:seconds?|ms)`. -/
def perfRespRE : RE :=
  rcat [.alt (rlit "system response") (rlit "response time"),
        .star (.cls chWsWord), .grp (rplus (.cls chNumDot)), .star (.cls pyWs),
        .alt (.seq (rlit "second") (.opt (rlit "s"))) (rlit "ms")]

/-- Python `(?:backup success|backup rate)[\s\w]*([0-9.]+%)`. -/
def backupRE : RE :=
  rcat [.alt (rlit "backup success") (rlit "backup rate"), .star (.cls chWsWord),
        .grp (.seq (rplus (.cls chNumDot)) (rlit "%"))]

/-- Python `(?:service credit|penalty)[\s\w]*([0-9.]+%)[\s\w]*(?:below|under)[\s]*([0-9.]+%)`. -/
def creditRE : RE :=
  rcat [.alt (rlit "service credit") (rlit "penalty"), .star (.cls chWsWord),
        .grp (.seq (rplus (.cls chNumDot)) (rlit "%")), .star (.cls chWsWord),
        .alt (rlit "below") (rlit "under"), .star (.cls pyWs),
        .grp (.seq (rplus (.cls chNumDot)) (rlit "%"))]

/-! ## Data model (`backend/app/models.py`)

Each structure mirrors the declared fields of the pydantic model of the same
name.  Where the parser stores a runtime value whose type differs from the
annotation (pydantic does not validate attribute assignment by default), the
field uses the runtime type and says so in a comment. -/

structure PartyInfo where
  name : Option String := none
  address : Option String := none
  phone : Option String := none
  email : Option String := none
  tax_id : Option String := none
  account_number : Option String := none
deriving DecidableEq

structure AuthorizedRepresentative where
  name : Option String := none
  title : Option String := none
deriving DecidableEq

structure AuthorizedRepresentatives where
  service_provider : Option AuthorizedRepresentative := none
  customer : Option AuthorizedRepresentative := none
deriving DecidableEq

structure Parties where
  service_provider : Option PartyInfo := none
  customer : Option PartyInfo := none
  authorized_representatives : Option AuthorizedRepresentatives := none
deriving DecidableEq

structure BillingContact where
  name : Option String := none
  title : Option String := none
  email : Option String := none
  phone : Option String := none
deriving DecidableEq

structure AccountInfo where
  account_number : Option String := none
  billing_contact : Option BillingContact := none
deriving DecidableEq

structure LineItem where
  service : Option String := none
  quantity : Option Nat := none
  unit : Option String := none
  unit_price : Option ℚ := none
  monthly_total : Option ℚ := none
deriving DecidableEq

/-- Python dicts of cost label to amount, as insertion-ordered association
lists. -/
abbrev CostDict := List (String × ℚ)

structure FinancialDetails where
  line_items : Option (List LineItem) := none
  monthly_costs : Option CostDict := none
  one_time_costs : Option CostDict := none
  total_monthly : Option ℚ := none
  total_one_time : Option ℚ := none
  annual_contract_value : Option ℚ := none
  currency : Option String := some "USD"
deriving DecidableEq

structure BankingInfo where
  bank : Option String := none
  account : Option String := none
  routing : Option String := none
deriving DecidableEq

structure PaymentStructure where
  payment_terms : Option String := none
  payment_schedule : Option String := none
  payment_due_date : Option String := none
  payment_method : Option String := none
  late_payment_terms : Option String := none
  -- annotated `Optional[float]`; the parser assigns a formatted string
  late_payment_fee : Option String := none
  banking_info : Option BankingInfo := none
deriving DecidableEq

structure RevenueClassification where
  type : Option String := none
  contract_term : Option String := none
  billing_cycle : Option String := none
  auto_renewal : Option String := none
  termination_notice : Option String := none
  pricing_adjustments : Option String := none
deriving DecidableEq

/-- Fields of `models.ResponseTimes`: `critical_issues`, `high_priority`,
`medium_priority`, `low_priority` (with `Field` aliases such as
`"Critical issues"`).  The parser's constructor call uses the keyword names
`critical`/`high`/`medium`/`low`, which match neither field names nor
aliases. -/
structure ResponseTimes where
  critical_issues : Option String := none
  high_priority : Option String := none
  medium_priority : Option String := none
  low_priority : Option String := none
deriving DecidableEq

structure PerformanceMetrics where
  system_response_time : Option String := none
  backup_success_rate : Option String := none
  security_patch_deployment : Option String := none
deriving DecidableEq

/-- Fields of `models.ServiceCredits`; the parser constructs entries with
keyword names `threshold`/`credit_percentage`/`description`, which match no
declared field. -/
structure ServiceCredits where
  availability_penalty : Option String := none
  response_time_penalty : Option String := none
  maximum_credits : Option String := none
deriving DecidableEq

structure SLATerms where
  uptime_commitment : Option String := none
  response_times : Option ResponseTimes := none
  performance_metrics : Option PerformanceMetrics := none
  -- annotated `Optional[ServiceCredits]`; the parser always assigns a list
  service_credits : List ServiceCredits := []
deriving DecidableEq

structure GapAnalysis where
  missing_fields : Option (List String) := none
  incomplete_fields : Option (List String) := none
  notes : Option String := none
deriving DecidableEq

/-- Python `models.ExtractedData` declares exactly these six sub-records — in
particular no `gap_analysis` and no `confidence_score` field. -/
structure ExtractedData where
  parties : Option Parties := none
  account_info : Option AccountInfo := none
  financial_details : Option FinancialDetails := none
  payment_structure : Option PaymentStructure := none
  revenue_classification : Option RevenueClassification := none
  sla_terms : Option SLATerms := none
deriving DecidableEq

/-! ## Python truthiness -/

/-- Truthiness of an optional string (`None` and `""` are falsy). -/
def truthyStr : Option String → Bool
  | some s => !(s == "")
  | none => false

/-- Truthiness of an optional number (`None` and `0.0` are falsy). -/
def truthyRat : Option ℚ → Bool
  | some q => !(q == 0)
  | none => false

/-- Truthiness of an optional list or dict (`None` and empty are falsy). -/
def truthyList {α : Type} : Option (List α) → Bool
  | some l => !l.isEmpty
  | none => false

/-- Truthiness of an optional pydantic model instance (an instance is always
truthy). -/
def truthySome {α : Type} (o : Option α) : Bool := o.isSome

/-! ## Party extractor (`PDFParser._extract_parties`) -/

/-- All free-standing email addresses, in first-occurrence order. -/
def partyEmails (text : String) : List String :=
  (findAll reCS emailsFreeRE text).map g0

/-- All phone numbers, in first-occurrence order. -/
def partyPhones (text : String) : List String :=
  (findAll reCS phonesFreeRE text).map g0

/-- All street addresses, in first-occurrence order. -/
def partyAddresses (text : String) : List String :=
  (findAll reCI addrRE text).map g0

/-- All tax identifiers, in first-occurrence order. -/
def partyTaxIds (text : String) : List String :=
  (findAll reCI taxIdRE text).map g0

/-- Model of `clean_company_name`: whitespace normalisation, then one
anchored strip of a leading boilerplate word, then truncation at the first
whitespace-plus-boilerplate keyword, then a final strip.

The leading substitution is
`re.sub(r'^(?:Service Provider|liability|limited to|between|with|and)\s+', '', ·)`:
anchored, so it fires at most once, removing the alternative (tried in
pattern order) together with the greedy whitespace run after it. -/
def cleanDropLead (s : String) : String :=
  let l := s.toList
  let kws := ["Service Provider", "liability", "limited to", "between", "with", "and"]
  match kws.find? (fun k =>
      startsCI k.toList l && pyWs ((l.drop k.length).headD 'x')) with
  | some k => String.mk ((l.drop k.length).dropWhile pyWs)
  | none => s

/-- Keyword list of the trailing substitution
`re.sub(r'\s+(?:liability|limited to|shall|will|may).*$', '', ·)`. -/
def trailKws : List (List Char) :=
  [String.toList "liability", String.toList "limited to",
   String.toList "shall", String.toList "will", String.toList "may"]

/-- Check that a keyword follows the whitespace run starting here (the
keywords start with a letter, so under backtracking of `\s+` the keyword can
only begin right after the full run). -/
def trailKwHere (l : List Char) : Bool :=
  trailKws.any (fun k => startsCI k (l.dropWhile pyWs))

/-- Truncate at the leftmost `\s+(?:liability|limited to|shall|will|may)`;
`.*$` removes everything after it (the input is already newline-free). -/
def cleanCutTrail : List Char → List Char
  | [] => []
  | c :: cs =>
    if pyWs c && trailKwHere (c :: cs) then []
    else c :: cleanCutTrail cs

/-- Python `clean_company_name` of the parser. -/
def clean_company_name (s : String) : String :=
  pyStrip (String.mk (cleanCutTrail ((cleanDropLead (wsNormalize s)).toList)))

/-- Company candidates of the narrow pattern. -/
def companyMatches (text : String) : List String :=
  (findAll reCI companyNameRE text).map g0

/-- Company candidates of the broad pattern. -/
def broadMatches (text : String) : List String :=
  (findAll reCIML broadCompanyRE text).map g0

/-- Python `[clean_company_name(name) for name in list(set(company_matches + broad_matches))]`.
The set's iteration order is hash-dependent in Python; it is modelled as
first-occurrence deduplication, and no theorem below depends on the order. -/
def allCompanies (text : String) : List String :=
  (dedupGo [] (companyMatches text ++ broadMatches text)).map clean_company_name

/-- Job-title / boilerplate terms that disqualify a candidate. -/
def invalidTerms : List String :=
  ["vp of", "vice president", "manager", "director", "ceo", "cfo",
   "president of", "liability", "shall", "will", "may", "service provider",
   "customer", "client"]

/-- Candidate filter of the parser: at least 5 characters, no invalid term
as a substring of the lowercased name, and no leading determiner. -/
def validCompany (c : String) : Bool :=
  let lc := toLowerStr c
  5 ≤ c.length
    && !(invalidTerms.any (fun t => hasSubCI t.toList lc.toList))
    && !(["the ", "this ", "such ", "any "].any (fun p => startsCI p.toList lc.toList))

/-- Surviving company candidates. -/
def validCompanies (text : String) : List String :=
  (allCompanies text).filter validCompany

/-- Service-provider name resolution: explicit `Consultant:` label, else
explicit `Service Provider:` label, else the first surviving candidate. -/
def spNameOf (text : String) : Option String :=
  match searchRe reCI consultantRE text with
  | some caps => some (clean_company_name (g0 caps))
  | none =>
    match searchRe reCI serviceProviderRE text with
    | some caps => some (clean_company_name (g0 caps))
    | none => (validCompanies text).head?

/-- Customer fallback: the three relationship patterns, accepting the first
match that differs from the provider name, has at least 5 characters, and
contains no boilerplate term. -/
def fallbackCustomer (text : String) (spName : Option String) : Option String :=
  let ok := fun (pc : String) =>
    !(some pc == spName) && 5 ≤ pc.length
      && !(["service provider", "liability", "shall", "will"].any
            (fun t => hasSubCI t.toList (toLowerStr pc).toList))
  let tryPat := fun (re : RE) =>
    match searchRe reCI re text with
    | some caps =>
      let pc := clean_company_name (g0 caps)
      if ok pc then some pc else none
    | none => none
  ((tryPat custLabelRE).orElse (fun _ => tryPat agreementRE)).orElse
    (fun _ => tryPat withForRE)

/-- Customer name resolution: explicit `Client:` label, else the first
surviving candidate distinct from the provider (only tried when more than
one candidate survives), else — when the result so far is falsy — the
relationship-pattern fallback. -/
def custNameOf (text : String) (spName : Option String) : Option String :=
  let c1 : Option String :=
    match searchRe reCI clientRE text with
    | some caps => some (clean_company_name (g0 caps))
    | none =>
      if 1 < (validCompanies text).length then
        (validCompanies text).find? (fun c => !(some c == spName))
      else none
  if truthyStr c1 then c1 else fallbackCustomer text spName

/-- The `parties.service_provider` record: constructed only under a
truthiness check of the resolved name; receives the first email, phone,
address (whitespace-normalised) and tax id of the document. -/
def spRecordOf (text : String) : Option PartyInfo :=
  if truthyStr (spNameOf text) then
    some { name := spNameOf text, email := (partyEmails text).head?,
           phone := (partyPhones text).head?,
           address := (partyAddresses text).head?.map wsNormalize,
           tax_id := (partyTaxIds text).head?, account_number := none }
  else none

/-- The `parties.customer` record: constructed only under a truthiness
check of the resolved name; receives the second email, phone, address and
tax id of the document (when present). -/
def custRecordOf (text : String) : Option PartyInfo :=
  if truthyStr (custNameOf text (spNameOf text)) then
    some { name := custNameOf text (spNameOf text),
           email := (partyEmails text)[1]?, phone := (partyPhones text)[1]?,
           address := ((partyAddresses text)[1]?).map wsNormalize,
           tax_id := (partyTaxIds text)[1]?, account_number := none }
  else none

/-- Python `PDFParser._extract_parties`.  A `PartyInfo` is only constructed after a
name has been resolved (and found truthy); contact attachment is positional
(first email/phone/address/tax id to the provider, second to the
customer). -/
def extract_parties (text : String) : Parties :=
  { service_provider := spRecordOf text, customer := custRecordOf text,
    authorized_representatives := none }

/-! ## Financial extractor (`PDFParser._extract_financial_details`) -/

/-- Capture groups of the hourly line-item pattern, as
(service, hours, total) string triples. -/
def hourlyTriples (text : String) : List (String × String × String) :=
  (findAll reCI hourlyRE text).map (fun caps =>
    (g0 caps, (caps[1]?).getD "", (caps[2]?).getD ""))

/-- Line item built from one hourly match: `unit_price` is
`float(total)/int(hours)` when `int(hours) > 0` and `0` otherwise (the
explicit division-by-zero guard); `none` when `float` fails on the total. -/
def hourlyItemOf : String × String × String → Option LineItem :=
  fun st =>
    match parseAmount st.2.2 with
    | none => none
    | some tot =>
      let n := natOfDigits st.2.1
      some { service := some (wsNormalize st.1),
             unit_price := some (if 0 < n then tot / (n : ℚ) else 0),
             unit := some "hour", quantity := some n, monthly_total := some tot }

/-- Line item built from one service-rate match (caps: service, rate, and
optionally the unit).  The unit defaults to `"hour"` when the optional group
did not participate; `monthly_total` is only set for fixed-fee items. -/
def serviceItemOf (caps : List String) : Option LineItem :=
  match parseAmount ((caps[1]?).getD "") with
  | none => none
  | some up =>
    let unitRaw := (caps[2]?).getD ""
    let unit_type := if unitRaw == "" then "hour" else toLowerStr unitRaw
    some { service := some (wsNormalize (g0 caps)), unit_price := some up,
           unit := some unit_type, quantity := some 1,
           monthly_total := if unit_type == "fixed" then some up else none }

/-- Python dict update: overwrite in place when the key exists, append
otherwise. -/
def dictUpd : CostDict → String → ℚ → CostDict
  | [], k, v => [(k, v)]
  | (k0, v0) :: rest, k, v =>
    if k0 == k then (k0, v) :: rest else (k0, v0) :: dictUpd rest k v

/-- Python `one_time_costs[item.service] = item.unit_price` for each fixed-unit
line item, in list order. -/
def fixedItemsFold (items : List LineItem) (d : CostDict) : CostDict :=
  items.foldl (fun acc it =>
    if it.unit == some "fixed" then
      dictUpd acc (it.service.getD "") (it.unit_price.getD 0)
    else acc) d

/-- Sum of a cost dict's values (`sum(d.values())`, and `0` for the empty
dict, matching `… if d else 0`). -/
def sumVals (d : CostDict) : ℚ := (d.map Prod.snd).sum

/-- First capture of every annual-value match. -/
def annualAmountGroups (text : String) : List String :=
  (findAll reCI annualRE text).map g0

/-- Contract term in months: first `Term/Duration/Contract Period: N months`
match, defaulting to 12. -/
def contractMonthsOf (text : String) : Nat :=
  match (findAll reCI contractTermRE text).map g0 with
  | n :: _ => natOfDigits n
  | [] => 12

/-- The `monthly_costs` dict: one `"Monthly Total"` entry from the first
match when there is one (`none` when its amount group has no digit and
`float` raises), the empty dict otherwise. -/
def monthlyCostsOf (text : String) : Option CostDict :=
  match (findAll reCI monthlyTotRE text).map g0 with
  | [] => some []
  | v :: _ => (parseAmount v).map (fun q => [("Monthly Total", q)])

/-- The base `one_time_costs` dict: one `"Setup Fee"` entry from the first
match when there is one, the empty dict otherwise. -/
def setupCostsOf (text : String) : Option CostDict :=
  match (findAll reCI setupRE text).map g0 with
  | [] => some []
  | v :: _ => (parseAmount v).map (fun q => [("Setup Fee", q)])

/-- The `annual_contract_value` assignment: the first explicit annual match
when one exists (`none` when its amount does not parse); otherwise, when
`total_monthly > 0`, the product with the contract term in months; otherwise
the field stays absent. -/
def annualValueOf (text : String) (total_monthly : ℚ) : Option (Option ℚ) :=
  match annualAmountGroups text with
  | v :: _ => (parseAmount v).map some
  | [] =>
    some (if 0 < total_monthly then
            some (total_monthly * (contractMonthsOf text : ℚ))
          else none)

/-- Python `PDFParser._extract_financial_details`.  Returns `none` when the Python
code raises: `float('')` on a digitless amount group (the very first
list comprehension over all `\$…` matches can already do this).  The
locals `monthly_amounts`, `annual_amounts`, `hourly_rates` and `fixed_fees`
of the source are computed but never used and cannot fail, so they are not
modelled. -/
def extract_financial_details (text : String) : Option FinancialDetails :=
  (((findAll reCI currencyRE text).map g0).mapM parseAmount).bind fun _amounts =>
  ((findAll reCI serviceRateRE text).mapM serviceItemOf).bind fun sItems =>
  ((hourlyTriples text).mapM hourlyItemOf).bind fun hItems =>
  (monthlyCostsOf text).bind fun monthly_costs =>
  (setupCostsOf text).bind fun otcBase =>
  let line_items := sItems ++ hItems
  let one_time_costs := fixedItemsFold line_items otcBase
  let total_monthly : ℚ := sumVals monthly_costs
  let total_one_time : ℚ := sumVals one_time_costs
  (annualValueOf text total_monthly).bind fun annual =>
  some { line_items := if line_items.isEmpty then none else some line_items,
         monthly_costs := if monthly_costs.isEmpty then none
                          else some monthly_costs,
         one_time_costs := if one_time_costs.isEmpty then none
                           else some one_time_costs,
         total_monthly := some total_monthly,
         total_one_time := some total_one_time,
         annual_contract_value := annual,
         currency := some "USD" }

/-! ## Payment extractor (`PDFParser._extract_payment_structure`) -/

/-- Python `re.search(r'monthly|per month', text, re.IGNORECASE)` — an alternation
of plain literals, i.e. case-insensitive substring presence. -/
def monthlyKw (text : String) : Bool :=
  containsCI text "monthly" || containsCI text "per month"

/-- Python `re.search(r'quarterly|per quarter', …)`. -/
def quarterlyKw (text : String) : Bool :=
  containsCI text "quarterly" || containsCI text "per quarter"

/-- Python `re.search(r'annually|yearly|per year', …)`. -/
def annualKw (text : String) : Bool :=
  containsCI text "annually" || containsCI text "yearly" || containsCI text "per year"

/-- Python `PDFParser._extract_payment_structure`.  Returns `none` when the Python
code raises: whenever the discount pattern matches, the source assigns
`payment.discount_terms`, a field `PaymentStructure` does not declare, and
pydantic raises on assignment of an undeclared attribute. -/
def extract_payment_structure (text : String) : Option PaymentStructure :=
  let payment_terms : Option String :=
    match (findAll reCI payTermsRE text).map g0 with
    | n :: _ => some ("Net " ++ n ++ " days")
    | [] =>
      match (findAll reCI altTermsRE text).map g0 with
      | n :: _ => some ("Net " ++ n ++ " days")
      | [] => none
  let payment_method :=
    (((findAll reCI payMethodRE text).map g0).head?).map pyStrip
  let payment_schedule : Option String :=
    match (findAll reCI scheduleRE text).map g0 with
    | m :: _ => some m
    | [] =>
      if monthlyKw text then some "Monthly recurring billing"
      else if quarterlyKw text then some "Quarterly billing"
      else if annualKw text then some "Annual billing"
      else none
  let late_payment_fee :=
    (((findAll reCI lateFeeRE text).map g0).head?).map
      (fun p => p ++ " per month on overdue amounts")
  if !(findAll reCI discountRE text).isEmpty then
    none
  else
    let bank := (findAll reCI bankNameRE text).map g0
    let acct := (findAll reCI acctLooseRE text).map g0
    let routing := (findAll reCI routingRE text).map g0
    -- swift matches are computed by the source but, like the other three
    -- kwargs (bank_name / account_number / routing_number / swift_code),
    -- match no declared field of BankingInfo and are dropped by pydantic
    let banking_info : Option BankingInfo :=
      if !bank.isEmpty || !acct.isEmpty || !routing.isEmpty then
        some { bank := none, account := none, routing := none }
      else none
    some { payment_terms := payment_terms, payment_schedule := payment_schedule,
           payment_due_date := none, payment_method := payment_method,
           late_payment_terms := none, late_payment_fee := late_payment_fee,
           banking_info := banking_info }

/-! ## Account extractor (`PDFParser._extract_account_info`) -/

def extract_account_info (text : String) : AccountInfo :=
  let acct := (findAll reCI acctNumRE text).map g0
  let emails := (findAll reCI emailLabelRE text).map g0
  let billing_phones := (findAll reCI billPhoneRE text).map g0
  let contacts := (findAll reCI contactRE text).map g0
  let billing_contact : Option BillingContact :=
    if !emails.isEmpty || !billing_phones.isEmpty || !contacts.isEmpty then
      some { name := contacts.head?.map pyStrip, title := none,
             email := emails.head?, phone := billing_phones.head? }
    else none
  { account_number := acct.head?, billing_contact := billing_contact }

/-! ## Revenue classification (`PDFParser._extract_revenue_classification`) -/

/-- Python `re.search(r'recurring|subscription|monthly|quarterly|annual', …)`. -/
def recurringKw (text : String) : Bool :=
  containsCI text "recurring" || containsCI text "subscription"
    || containsCI text "monthly" || containsCI text "quarterly"
    || containsCI text "annual"

/-- Occurrence of `one.?time` at this position of the lowercased text: the
literal `one`, then at most one arbitrary non-newline character, then the
literal `time`. -/
def oneDotTimeAt : List Char → Bool
  | 'o' :: 'n' :: 'e' :: rest =>
    startsCI ['t', 'i', 'm', 'e'] rest
      || (match rest with
          | c :: rest2 => !(c == '\n') && startsCI ['t', 'i', 'm', 'e'] rest2
          | [] => false)
  | _ => false

/-- Scan for `one.?time` anywhere. -/
def oneDotTimeScan : List Char → Bool
  | [] => false
  | c :: cs => oneDotTimeAt (c :: cs) || oneDotTimeScan cs

/-- Python `re.search(r'one.?time|single payment|lump sum', …)`.  Note `.` matches
any character except newline, so `onetime`, `one time`, `oneXtime` all
match. -/
def oneTimeKw (text : String) : Bool :=
  oneDotTimeScan (text.toList.map Char.toLower)
    || containsCI text "single payment" || containsCI text "lump sum"

def extract_revenue_classification (text : String) : RevenueClassification :=
  let term := (findAll reCI contractTermRE text).map g0
  let renew := (findAll reCI autoRenewRE text).map g0
  let rtype : String :=
    if recurringKw text then "recurring"
    else if oneTimeKw text then "one-time"
    else "mixed"
  let cycle : Option String :=
    if monthlyKw text then some "monthly"
    else if quarterlyKw text then some "quarterly"
    else if annualKw text then some "annual"
    else none
  let tn := (findAll reCI terminationRE text).map g0
  let pa := (findAll reCI pricingRE text).map g0
  { type := some rtype,
    contract_term := term.head?.map (fun n => n ++ " months"),
    billing_cycle := cycle,
    auto_renewal := renew.head?.map (fun n => n ++ "-month terms"),
    termination_notice := tn.head?.map (fun n => n ++ " days written notice"),
    pricing_adjustments := pa.head?.map (fun p => "Limited to " ++ p ++ " annually") }

/-! ## SLA extractor (`PDFParser._extract_sla_terms`) -/

/-- Values computed at the `ResponseTimes(critical=…, high=…, medium=…,
low=…)` call site: the first severity-tier match formatted as
`"N hours"`, or the hard-coded default of the tier. -/
structure ResponseTimesKwargs where
  critical : String
  high : String
  medium : String
  low : String
deriving DecidableEq

def responseTimesKwargs (text : String) : ResponseTimesKwargs :=
  { critical := match (findAll reCI criticalRE text).map g0 with
      | v :: _ => v ++ " hours"
      | [] => "1 hour",
    high := match (findAll reCI highRE text).map g0 with
      | v :: _ => v ++ " hours"
      | [] => "4 hours",
    medium := match (findAll reCI mediumRE text).map g0 with
      | v :: _ => v ++ " hours"
      | [] => "8 hours",
    low := match (findAll reCI lowRE text).map g0 with
      | v :: _ => v ++ " hours"
      | [] => "24 hours" }

/-- The `ResponseTimes` value the constructor call actually produces: the
keyword names `critical`/`high`/`medium`/`low` match no declared field of
`models.ResponseTimes` (whose fields are `critical_issues`, `high_priority`,
`medium_priority`, `low_priority`), so pydantic's default extra-argument
behaviour silently ignores all four and every field is `None`. -/
def pydanticResponseTimes (_k : ResponseTimesKwargs) : ResponseTimes :=
  { critical_issues := none, high_priority := none,
    medium_priority := none, low_priority := none }

def extract_sla_terms (text : String) : SLATerms :=
  let uptime := (findAll reCI uptimeRE text).map g0
  let resp := (findAll reCI perfRespRE text).map g0
  let backup := (findAll reCI backupRE text).map g0
  let performance_metrics : Option PerformanceMetrics :=
    if !resp.isEmpty || !backup.isEmpty then
      some { system_response_time := resp.head?.map (fun v => "< " ++ v ++ " seconds"),
             backup_success_rate := backup.head?,
             security_patch_deployment := none }
    else none
  -- each ServiceCredits(threshold=…, credit_percentage=…, description=…)
  -- entry has all of its keyword arguments dropped by pydantic
  let service_credits := (findAll reCI creditRE text).map
    (fun _caps => ({} : ServiceCredits))
  { uptime_commitment := uptime.head?.map (fun u => u ++ " uptime guarantee"),
    response_times := some (pydanticResponseTimes (responseTimesKwargs text)),
    performance_metrics := performance_metrics,
    service_credits := service_credits }

/-! ## Gap analyzer (`PDFParser._analyze_gaps`) -/

/-- One conditional append to a diagnostic list. -/
def condField (b : Bool) (s : String) : List String :=
  if b then [s] else []

/-- The `missing_fields` list, in append order. -/
def missingFieldsOf (parties : Parties) (fin : FinancialDetails)
    (pay : PaymentStructure) (sla : SLATerms) : List String :=
  condField (!(match parties.service_provider with
               | some p => truthyStr p.name
               | none => false)) "service_provider_name"
  ++ condField (!(match parties.customer with
                  | some p => truthyStr p.name
                  | none => false)) "customer_name"
  ++ condField (!truthyRat fin.annual_contract_value) "annual_contract_value"
  ++ condField (!truthyList fin.monthly_costs && !truthyList fin.one_time_costs)
       "cost_breakdown"
  ++ condField (!truthyStr pay.payment_terms) "payment_terms"
  ++ condField (!truthyStr sla.uptime_commitment) "uptime_commitment"
  ++ condField (!truthySome sla.response_times) "response_times"

/-- The `incomplete_fields` list, in append order. -/
def incompleteFieldsOf (parties : Parties) (pay : PaymentStructure) : List String :=
  condField (match parties.service_provider with
             | some p => !truthyStr p.email
             | none => false) "service_provider_contact"
  ++ condField (match parties.customer with
                | some p => !truthyStr p.email
                | none => false) "customer_contact"
  ++ condField (!truthyStr pay.payment_method) "payment_method"

def analyze_gaps (parties : Parties) (fin : FinancialDetails)
    (pay : PaymentStructure) (sla : SLATerms) : GapAnalysis :=
  let missing := missingFieldsOf parties fin pay sla
  let incomplete := incompleteFieldsOf parties pay
  let notes : List String :=
    (if !missing.isEmpty then
       ["Contract is missing " ++ toString missing.length ++ " critical fields"]
     else [])
    ++ (if !incomplete.isEmpty then
          ["Contract has " ++ toString incomplete.length ++ " incomplete sections"]
        else [])
    ++ (if missing.isEmpty && incomplete.isEmpty then
          ["Contract appears to be comprehensive with all major sections present"]
        else [])
  { missing_fields := some missing, incomplete_fields := some incomplete,
    notes := if notes.isEmpty then none else some (String.intercalate "; " notes) }

/-! ## Pipeline orchestrator (`PDFParser.parse_contract`)

The source takes PDF bytes and first extracts text via PyPDF2 (the upstream
collaborator); the model starts from the extracted text.  Any exception in a
sub-extractor propagates (the source re-raises it as `ValueError`), modelled
as `none`. -/

/-- The gap analysis computed inside `parse_contract` (the value passed as
the `gap_analysis` keyword argument of the `ExtractedData(...)` call). -/
def pipelineGapAnalysis (text : String) : Option GapAnalysis := do
  let fin ← extract_financial_details text
  let pay ← extract_payment_structure text
  pure (analyze_gaps (extract_parties text) fin pay (extract_sla_terms text))

/-- Python `PDFParser.parse_contract` after text extraction.  The constructor call
passes `gap_analysis=…`, but `models.ExtractedData` declares no such field,
so pydantic silently drops it; no confidence score is computed here (the
service layer computes it separately and stores it next to, not inside, the
record). -/
def parse_contract (text : String) : Option ExtractedData := do
  let fin ← extract_financial_details text
  let pay ← extract_payment_structure text
  let _gap := analyze_gaps (extract_parties text) fin pay (extract_sla_terms text)
  pure { parties := some (extract_parties text),
         account_info := some (extract_account_info text),
         financial_details := some fin,
         payment_structure := some pay,
         revenue_classification := some (extract_revenue_classification text),
         sla_terms := some (extract_sla_terms text) }

/-- Field names declared by `models.ExtractedData` (lines 176–184). -/
def extractedDataFieldNames : List String :=
  ["parties", "account_info", "financial_details", "payment_structure",
   "revenue_classification", "sla_terms"]

/-- Keyword arguments of the `ExtractedData(...)` call in
`parse_contract` (lines 626–634), in source order. -/
def parseContractCallKwargs : List String :=
  ["parties", "financial_details", "payment_structure", "account_info",
   "revenue_classification", "sla_terms", "gap_analysis"]

/-- pydantic's default extra-argument behaviour: keyword arguments that name
a declared field are kept, all others are ignored. -/
def pydanticKeptKwargs (fields kwargs : List String) : List String :=
  kwargs.filter (fun k => fields.contains k)

/-! ## Confidence scorer (`PDFParser.calculate_confidence_score`) -/

/-- Financial completeness: 30 points. -/
def scoreFinancial : Option FinancialDetails → Nat
  | some f =>
    (if truthyRat f.annual_contract_value then 10 else 0)
    + (if truthyList f.monthly_costs || truthyList f.one_time_costs then 10 else 0)
    + (if truthyList f.line_items then 10 else 0)
  | none => 0

/-- Party identification: 25 points. -/
def scoreParties : Option Parties → Nat
  | some p =>
    (if (match p.service_provider with
         | some sp => truthyStr sp.name
         | none => false) then 10 else 0)
    + (if (match p.customer with
           | some c => truthyStr c.name
           | none => false) then 10 else 0)
    + (if (match p.service_provider with
           | some sp => truthyStr sp.email
           | none => false)
         || (match p.customer with
             | some c => truthyStr c.email
             | none => false) then 5 else 0)
  | none => 0

/-- Payment terms clarity: 20 points. -/
def scorePayment : Option PaymentStructure → Nat
  | some pay =>
    (if truthyStr pay.payment_terms then 10 else 0)
    + (if truthyStr pay.payment_method then 5 else 0)
    + (if truthyStr pay.payment_schedule then 5 else 0)
  | none => 0

/-- SLA definition: 15 points. -/
def scoreSLA : Option SLATerms → Nat
  | some s =>
    (if truthyStr s.uptime_commitment then 5 else 0)
    + (if truthySome s.response_times then 5 else 0)
    + (if truthySome s.performance_metrics then 5 else 0)
  | none => 0

/-- Contact information: 10 points. -/
def scoreContact : Option AccountInfo → Nat
  | some a =>
    match a.billing_contact with
    | some b =>
      (if truthyStr b.email then 5 else 0) + (if truthyStr b.phone then 5 else 0)
    | none => 0
  | none => 0

/-- Python `PDFParser.calculate_confidence_score`: accumulated category points,
capped at 100. -/
def calculate_confidence_score (d : ExtractedData) : Nat :=
  min (scoreFinancial d.financial_details + scoreParties d.parties
       + scorePayment d.payment_structure + scoreSLA d.sla_terms
       + scoreContact d.account_info) 100

/-! ## Definitions following the specification's words

The following definitions do NOT come from the source; each follows the
wording of a specification sentence and exists only to be compared with the
corresponding source-derived definition. -/

/-- The confidence score as the specification's weight table reads when
"present" means non-`None`: sum of the matched rows, clamped to `[0, 100]`. -/
def specPresenceScore (d : ExtractedData) : Nat :=
  min
    ((if (d.financial_details.bind FinancialDetails.annual_contract_value).isSome then 10 else 0)
     + (if (d.financial_details.bind FinancialDetails.monthly_costs).isSome
           || (d.financial_details.bind FinancialDetails.one_time_costs).isSome then 10 else 0)
     + (if (d.financial_details.bind FinancialDetails.line_items).isSome then 10 else 0)
     + (if ((d.parties.bind Parties.service_provider).bind PartyInfo.name).isSome then 10 else 0)
     + (if ((d.parties.bind Parties.customer).bind PartyInfo.name).isSome then 10 else 0)
     + (if ((d.parties.bind Parties.service_provider).bind PartyInfo.email).isSome
           || ((d.parties.bind Parties.customer).bind PartyInfo.email).isSome then 5 else 0)
     + (if (d.payment_structure.bind PaymentStructure.payment_terms).isSome then 10 else 0)
     + (if (d.payment_structure.bind PaymentStructure.payment_method).isSome then 5 else 0)
     + (if (d.payment_structure.bind PaymentStructure.payment_schedule).isSome then 5 else 0)
     + (if (d.sla_terms.bind SLATerms.uptime_commitment).isSome then 5 else 0)
     + (if (d.sla_terms.bind SLATerms.response_times).isSome then 5 else 0)
     + (if (d.sla_terms.bind SLATerms.performance_metrics).isSome then 5 else 0)
     + (if ((d.account_info.bind AccountInfo.billing_contact).bind BillingContact.email).isSome then 5 else 0)
     + (if ((d.account_info.bind AccountInfo.billing_contact).bind BillingContact.phone).isSome then 5 else 0))
    100

/-- The same weight table with each row matched on Python truthiness (the
condition the source actually tests): a flat sum of the fourteen rows. -/
def truthyWeightSum (d : ExtractedData) : Nat :=
  (if truthyRat (d.financial_details.bind FinancialDetails.annual_contract_value) then 10 else 0)
  + (if truthyList (d.financial_details.bind FinancialDetails.monthly_costs)
        || truthyList (d.financial_details.bind FinancialDetails.one_time_costs) then 10 else 0)
  + (if truthyList (d.financial_details.bind FinancialDetails.line_items) then 10 else 0)
  + (if truthyStr ((d.parties.bind Parties.service_provider).bind PartyInfo.name) then 10 else 0)
  + (if truthyStr ((d.parties.bind Parties.customer).bind PartyInfo.name) then 10 else 0)
  + (if truthyStr ((d.parties.bind Parties.service_provider).bind PartyInfo.email)
        || truthyStr ((d.parties.bind Parties.customer).bind PartyInfo.email) then 5 else 0)
  + (if truthyStr (d.payment_structure.bind PaymentStructure.payment_terms) then 10 else 0)
  + (if truthyStr (d.payment_structure.bind PaymentStructure.payment_method) then 5 else 0)
  + (if truthyStr (d.payment_structure.bind PaymentStructure.payment_schedule) then 5 else 0)
  + (if truthyStr (d.sla_terms.bind SLATerms.uptime_commitment) then 5 else 0)
  + (if truthySome (d.sla_terms.bind SLATerms.response_times) then 5 else 0)
  + (if truthySome (d.sla_terms.bind SLATerms.performance_metrics) then 5 else 0)
  + (if truthyStr ((d.account_info.bind AccountInfo.billing_contact).bind BillingContact.email) then 5 else 0)
  + (if truthyStr ((d.account_info.bind AccountInfo.billing_contact).bind BillingContact.phone) then 5 else 0)

/-- The revenue type as the specification's keyword sets read: literal
keyword containment (case-insensitive), in priority order. -/
def specKeywordRevenueType (text : String) : String :=
  if ["recurring", "subscription", "monthly", "quarterly", "annual"].any
       (fun k => containsCI text k) then "recurring"
  else if ["one-time", "single payment", "lump sum"].any
       (fun k => containsCI text k) then "one-time"
  else "mixed"

/-- The annual-contract-value resolution rule as the specification words it,
given the total monthly figure: first explicit annual match, else derived
from a positive monthly total and the contract term (default 12 months),
else absent. -/
def specAnnualValue (text : String) (tm : ℚ) : Option ℚ :=
  match annualAmountGroups text with
  | v :: _ => parseAmount v
  | [] => if 0 < tm then some (tm * (contractMonthsOf text : ℚ)) else none

/-! ## Concrete records used by counterexamples and witnesses -/

/-- Record whose only populated field is `annual_contract_value = 0.0`:
present (non-`None`) but falsy. -/
def dataZeroACV : ExtractedData :=
  { financial_details := some { annual_contract_value := some 0 } }

/-- The same record with `annual_contract_value = 1.0`: identical
presence/absence pattern, different truthiness. -/
def dataOneACV : ExtractedData :=
  { financial_details := some { annual_contract_value := some 1 } }

/-- Document text on which both parties resolve (via the explicit
`Consultant:` and `Client:` labels) and two emails occur. -/
def bothPartiesText : String :=
  "Consultant: Ab Co.\nClient: Cd Inc\na@b.co c@d.co"

/-! ## Helper lemmas -/

theorem truthyStr_isSome {o : Option String} (h : truthyStr o = true) :
    o.isSome = true := by
  cases o with
  | none => simp [truthyStr] at h
  | some s => rfl

theorem mem_condField {x s : String} {b : Bool} (h : x ∈ condField b s) :
    x = s ∧ b = true := by
  unfold condField at h
  by_cases hb : b
  · simp [hb] at h
    exact ⟨h, hb⟩
  · simp [hb] at h

theorem response_times_not_missing (P : Parties) (fin : FinancialDetails)
    (pay : PaymentStructure) (sla : SLATerms)
    (hs : sla.response_times.isSome = true) :
    "response_times" ∉ missingFieldsOf P fin pay sla := by
  intro hmem
  unfold missingFieldsOf at hmem
  simp only [List.mem_append, or_assoc] at hmem
  rcases hmem with h | h | h | h | h | h | h
  · exact absurd (mem_condField h).1 (by decide)
  · exact absurd (mem_condField h).1 (by decide)
  · exact absurd (mem_condField h).1 (by decide)
  · exact absurd (mem_condField h).1 (by decide)
  · exact absurd (mem_condField h).1 (by decide)
  · exact absurd (mem_condField h).1 (by decide)
  · have hb := (mem_condField h).2
    unfold truthySome at hb
    rw [hs] at hb
    simp at hb

theorem pipelineGap_iff_parse (text : String) :
    (pipelineGapAnalysis text).isSome = (parse_contract text).isSome := by
  unfold pipelineGapAnalysis parse_contract
  cases hf : extract_financial_details text <;>
    cases hp : extract_payment_structure text <;> rfl

theorem annualValueOf_spec (text : String) (tm : ℚ) (ann : Option ℚ)
    (h : annualValueOf text tm = some ann) : ann = specAnnualValue text tm := by
  unfold annualValueOf at h
  unfold specAnnualValue
  split at h
  · rename_i v tail hA
    rcases hq : parseAmount v with _ | q
    · rw [hq] at h
      exact Option.noConfusion h
    · rw [hq] at h
      obtain rfl := Option.some.inj h
      rfl
  · rename_i hA
    obtain rfl := Option.some.inj h
    rfl

theorem scoreFinancial_eq (o : Option FinancialDetails) :
    scoreFinancial o =
      (if truthyRat (o.bind FinancialDetails.annual_contract_value) then 10 else 0)
      + (if truthyList (o.bind FinancialDetails.monthly_costs)
            || truthyList (o.bind FinancialDetails.one_time_costs) then 10 else 0)
      + (if truthyList (o.bind FinancialDetails.line_items) then 10 else 0) := by
  cases o <;> rfl

theorem scoreParties_eq (o : Option Parties) :
    scoreParties o =
      (if truthyStr ((o.bind Parties.service_provider).bind PartyInfo.name) then 10 else 0)
      + (if truthyStr ((o.bind Parties.customer).bind PartyInfo.name) then 10 else 0)
      + (if truthyStr ((o.bind Parties.service_provider).bind PartyInfo.email)
            || truthyStr ((o.bind Parties.customer).bind PartyInfo.email) then 5 else 0) := by
  cases o with
  | none => rfl
  | some p =>
    rcases p with ⟨sp, cu, ar⟩
    rcases sp with _ | sp <;> rcases cu with _ | cu <;> rfl

theorem scorePayment_eq (o : Option PaymentStructure) :
    scorePayment o =
      (if truthyStr (o.bind PaymentStructure.payment_terms) then 10 else 0)
      + (if truthyStr (o.bind PaymentStructure.payment_method) then 5 else 0)
      + (if truthyStr (o.bind PaymentStructure.payment_schedule) then 5 else 0) := by
  cases o <;> rfl

theorem scoreSLA_eq (o : Option SLATerms) :
    scoreSLA o =
      (if truthyStr (o.bind SLATerms.uptime_commitment) then 5 else 0)
      + (if truthySome (o.bind SLATerms.response_times) then 5 else 0)
      + (if truthySome (o.bind SLATerms.performance_metrics) then 5 else 0) := by
  cases o <;> rfl

theorem scoreContact_eq (o : Option AccountInfo) :
    scoreContact o =
      (if truthyStr ((o.bind AccountInfo.billing_contact).bind BillingContact.email) then 5 else 0)
      + (if truthyStr ((o.bind AccountInfo.billing_contact).bind BillingContact.phone) then 5 else 0) := by
  cases o with
  | none => rfl
  | some a =>
    rcases a with ⟨an, bc⟩
    rcases bc with _ | bc <;> rfl

/-! ## Claim theorems -/

set_option maxHeartbeats 2000000

/-- C1: the SLA extractor's `ResponseTimes(critical=…, high=…, medium=…,
low=…)` call computes exactly the hard-coded defaults `"1 hour"`, `"4
hours"`, `"8 hours"`, `"24 hours"` on a text with no severity-tier match —
but those keyword arguments name no field of `models.ResponseTimes`, so the
record the extractor returns has all four tier fields `None` instead of the
defaults: the tiers are never populated. -/
theorem response_time_defaults_dropped :
    responseTimesKwargs "" =
      { critical := "1 hour", high := "4 hours", medium := "8 hours",
        low := "24 hours" } ∧
    (extract_sla_terms "").response_times =
      some { critical_issues := none, high_priority := none,
             medium_priority := none, low_priority := none } ∧
    ∀ text, (extract_sla_terms text).response_times =
      some (pydanticResponseTimes (responseTimesKwargs text)) :=
  ⟨by decide, by decide, fun _ => rfl⟩

/-- C2 (counterexample): the score is not the presence-based sum of the
specification's weight table.  `dataZeroACV` has `annual_contract_value`
present (equal to `0.0`), so the table's reading yields 10, but the code
scores it 0; `dataOneACV` has the identical presence pattern yet scores 10,
so the score does not depend only on presence/absence. -/
theorem confidence_score_not_presence_based :
    calculate_confidence_score dataZeroACV = 0 ∧
    specPresenceScore dataZeroACV = 10 ∧
    calculate_confidence_score dataOneACV = 10 ∧
    specPresenceScore dataOneACV = 10 := by decide

/-- C2 (amended): the score equals the weight-table sum with every row
matched on Python truthiness (non-`None` and non-zero / non-empty) rather
than mere presence, clamped to `[0, 100]`; in particular it is a natural
number at most 100 and depends only on the truthiness of the listed
fields. -/
theorem confidence_score_truthy_weighted (d : ExtractedData) :
    calculate_confidence_score d = min (truthyWeightSum d) 100 ∧
    calculate_confidence_score d ≤ 100 := by
  constructor
  · unfold calculate_confidence_score truthyWeightSum
    rw [scoreFinancial_eq, scoreParties_eq, scorePayment_eq, scoreSLA_eq,
        scoreContact_eq]
    congr 1
    ring
  · exact Nat.min_le_right _ _

/-- C3: the `ExtractedData(...)` call in `parse_contract` passes a
`gap_analysis` keyword argument, but the model declares neither
`gap_analysis` nor `confidence_score`, so pydantic keeps only the six
sub-record arguments; the record returned for any input (here the empty
text) is exactly the aggregate of the six sub-records, with no gap analysis
and no confidence score inside it. -/
theorem parse_contract_drops_gap_and_score :
    ("gap_analysis" ∈ parseContractCallKwargs ∧
     "gap_analysis" ∉ extractedDataFieldNames ∧
     "confidence_score" ∉ extractedDataFieldNames ∧
     pydanticKeptKwargs extractedDataFieldNames parseContractCallKwargs =
       ["parties", "financial_details", "payment_structure", "account_info",
        "revenue_classification", "sla_terms"]) ∧
    parse_contract "" =
      some { parties := some { service_provider := none, customer := none,
                               authorized_representatives := none },
             account_info := some { account_number := none, billing_contact := none },
             financial_details := some { line_items := none, monthly_costs := none,
                                         one_time_costs := none, total_monthly := some 0,
                                         total_one_time := some 0,
                                         annual_contract_value := none,
                                         currency := some "USD" },
             payment_structure := some { payment_terms := none, payment_schedule := none,
                                         payment_due_date := none, payment_method := none,
                                         late_payment_terms := none, late_payment_fee := none,
                                         banking_info := none },
             revenue_classification := some { type := some "mixed", contract_term := none,
                                              billing_cycle := none, auto_renewal := none,
                                              termination_notice := none,
                                              pricing_adjustments := none },
             sla_terms := some { uptime_commitment := none,
                                 response_times := some { critical_issues := none,
                                                          high_priority := none,
                                                          medium_priority := none,
                                                          low_priority := none },
                                 performance_metrics := none,
                                 service_credits := [] } } := by decide

/-- C4: every line item built from a match of
`([A-Za-z\s]+):\s*([0-9]+)\s*hours?\s*\(\$([0-9,]+\.?[0-9]*)\)` has
`quantity = N`, `unit = "hour"`, `monthly_total = total` and
`unit_price = total / N`, with `unit_price = 0` (not a failure) when
`N = 0`. -/
theorem hourly_line_item_fields (text s h t : String) (q : ℚ)
    (_hmem : (s, h, t) ∈ hourlyTriples text)
    (hq : parseAmount t = some q) :
    hourlyItemOf (s, h, t) =
      some { service := some (wsNormalize s), quantity := some (natOfDigits h),
             unit := some "hour",
             unit_price := some (if 0 < natOfDigits h
                                 then q / (natOfDigits h : ℚ) else 0),
             monthly_total := some q } := by
  simp only [hourlyItemOf, hq]

/-- C4 (witness): `"Consulting: 10 hours ($1000)"` produces the triple
`("Consulting", "10", "1000")`, whose line item is `quantity = 10`,
`unit = "hour"`, `unit_price = 100.0`, `monthly_total = 1000.0`; and a
matched quantity of zero yields `unit_price = 0` rather than a failure. -/
theorem hourly_line_item_fields_witness :
    ("Consulting", "10", "1000") ∈ hourlyTriples "Consulting: 10 hours ($1000)" ∧
    hourlyItemOf ("Consulting", "10", "1000") =
      some { service := some "Consulting", quantity := some 10,
             unit := some "hour", unit_price := some 100,
             monthly_total := some 1000 } ∧
    hourlyItemOf ("S", "0", "5") =
      some { service := some "S", quantity := some 0, unit := some "hour",
             unit_price := some 0, monthly_total := some 5 } := by
  refine ⟨by decide, ?_, ?_⟩
  · exact (hourly_line_item_fields "Consulting: 10 hours ($1000)"
      "Consulting" "10" "1000" 1000 (by decide) (by decide)).trans (by decide)
  · exact (hourly_line_item_fields "S: 0 hours ($5)"
      "S" "0" "5" 5 (by decide) (by decide)).trans (by decide)

/-- C5: whenever the pipeline produces a gap analysis, the string
`"response_times"` is not in its `missing_fields`: the SLA extractor always
returns a populated (`some`) `response_times` record, so the Gap Analyzer's
missing-response_times branch is unreachable. -/
theorem pipeline_never_missing_response_times (text : String) (g : GapAnalysis)
    (h : pipelineGapAnalysis text = some g) :
    "response_times" ∉ g.missing_fields.getD [] := by
  unfold pipelineGapAnalysis at h
  simp only [Option.bind_eq_bind, Option.bind_eq_some] at h
  obtain ⟨fin, hfin, pay, hpay, hg⟩ := h
  obtain rfl : analyze_gaps (extract_parties text) fin pay (extract_sla_terms text) = g :=
    Option.some.inj hg
  exact response_times_not_missing (extract_parties text) fin pay
    (extract_sla_terms text) rfl

/-- C5 (witness): the empty text flows through the whole pipeline; its gap
analysis lists six missing fields, none of which is `"response_times"`. -/
theorem pipeline_never_missing_response_times_witness :
    "response_times" ∉
      (GapAnalysis.mk
        (some ["service_provider_name", "customer_name", "annual_contract_value",
               "cost_breakdown", "payment_terms", "uptime_commitment"])
        (some ["payment_method"])
        (some "Contract is missing 6 critical fields; Contract has 1 incomplete sections")).missing_fields.getD [] :=
  pipeline_never_missing_response_times "" _ (by decide)

/-- C6: when the financial extractor succeeds, `annual_contract_value` is
the first explicit annual match when one exists; otherwise it is
`total_monthly × contract-term-in-months` (term from the first
`Term/Duration/Contract Period: N months` match, default 12) when
`total_monthly > 0`; otherwise it is absent. -/
theorem annual_value_resolution (text : String) (fin : FinancialDetails)
    (tm : ℚ) (h : extract_financial_details text = some fin)
    (htm : fin.total_monthly = some tm) :
    fin.annual_contract_value = specAnnualValue text tm := by
  unfold extract_financial_details at h
  simp only [Option.bind_eq_some] at h
  obtain ⟨am, ham, sI, hsI, hI, hhI, mc, hmc, ob, hob, ann, hann, hfin⟩ := h
  obtain rfl := Option.some.inj hfin
  obtain rfl : sumVals mc = tm := Option.some.inj htm
  exact annualValueOf_spec text (sumVals mc) ann hann

/-- C6 (witness): for a text with a monthly total of 100 and a 6-month term
and no explicit annual amount, the extractor succeeds and derives
`annual_contract_value = 600`. -/
theorem annual_value_resolution_witness :
    (extract_financial_details "Monthly Total: $100 Term: 6 months").isSome = true ∧
    FinancialDetails.annual_contract_value
      { line_items := none, monthly_costs := some [("Monthly Total", 100)],
        one_time_costs := none, total_monthly := some 100,
        total_one_time := some 0, annual_contract_value := some 600,
        currency := some "USD" } = some 600 := by
  refine ⟨by decide, ?_⟩
  have h := annual_value_resolution "Monthly Total: $100 Term: 6 months"
    { line_items := none, monthly_costs := some [("Monthly Total", 100)],
      one_time_costs := none, total_monthly := some 100,
      total_one_time := some 0, annual_contract_value := some 600,
      currency := some "USD" } 100 (by decide) (by decide)
  exact h.trans (by decide)

/-- C7 (counterexample): the text `"onetime"` contains none of the
specification's keywords (`one-time`, `single payment`, `lump sum`, nor any
recurring keyword), so the claimed rule classifies it `"mixed"`, but the
code's pattern `one.?time` matches it and classifies it `"one-time"`. -/
theorem revenue_type_keyword_set_refuted :
    (extract_revenue_classification "onetime").type = some "one-time" ∧
    specKeywordRevenueType "onetime" = "mixed" := by decide

/-- C7 (amended): the revenue type is always exactly one of `recurring`,
`one-time`, `mixed`, decided by priority: `recurring` when one of the five
recurring keywords occurs; else `one-time` when the text matches `one.?time`
(the literal `one`, at most one arbitrary non-newline character, then
`time` — e.g. `one-time`, `one time`, `onetime`) or contains
`single payment` or `lump sum`; else `mixed`.  A text with keywords of both
classes is classified `recurring`. -/
theorem revenue_type_priority (text : String) :
    ((extract_revenue_classification text).type = some "recurring" ∨
     (extract_revenue_classification text).type = some "one-time" ∨
     (extract_revenue_classification text).type = some "mixed") ∧
    (recurringKw text = true →
      (extract_revenue_classification text).type = some "recurring") ∧
    (recurringKw text = false → oneTimeKw text = true →
      (extract_revenue_classification text).type = some "one-time") ∧
    (recurringKw text = false → oneTimeKw text = false →
      (extract_revenue_classification text).type = some "mixed") := by
  by_cases h1 : recurringKw text <;> by_cases h2 : oneTimeKw text <;>
    simp [extract_revenue_classification, h1, h2]

/-- C7 (witness): `"monthly lump sum"` contains a keyword of each class and
is classified `recurring`. -/
theorem revenue_type_priority_witness :
    (extract_revenue_classification "monthly lump sum").type = some "recurring" :=
  (revenue_type_priority "monthly lump sum").2.1 (by decide)

/-- C8: whenever both parties resolve, contact attachment is positional:
the provider record carries the first email, phone, normalised address and
tax id found in the document, the customer record the second of each. -/
theorem positional_contact_attachment (text : String) (p c : PartyInfo)
    (hp : (extract_parties text).service_provider = some p)
    (hc : (extract_parties text).customer = some c) :
    p.email = (partyEmails text).head? ∧
    p.phone = (partyPhones text).head? ∧
    p.address = (partyAddresses text).head?.map wsNormalize ∧
    p.tax_id = (partyTaxIds text).head? ∧
    c.email = (partyEmails text)[1]? ∧
    c.phone = (partyPhones text)[1]? ∧
    c.address = ((partyAddresses text)[1]?).map wsNormalize ∧
    c.tax_id = (partyTaxIds text)[1]? := by
  have hp' : spRecordOf text = some p := hp
  have hc' : custRecordOf text = some c := hc
  unfold spRecordOf at hp'
  unfold custRecordOf at hc'
  by_cases h1 : truthyStr (spNameOf text)
  · simp only [h1, if_pos] at hp'
    by_cases h2 : truthyStr (custNameOf text (spNameOf text))
    · simp only [h2, if_pos] at hc'
      rw [Option.some.injEq] at hp' hc'
      subst hp'
      subst hc'
      exact ⟨rfl, rfl, rfl, rfl, rfl, rfl, rfl, rfl⟩
    · simp [h2] at hc'
  · simp [h1] at hp'

/-- C8 (witness): on `bothPartiesText` both parties resolve; the provider
receives the first email and the customer the second. -/
theorem positional_contact_attachment_witness :
    (PartyInfo.email
       { name := some "Ab Co.", address := none, phone := none,
         email := some "a@b.co", tax_id := none, account_number := none })
      = (partyEmails bothPartiesText).head? ∧
    (PartyInfo.email
       { name := some "Cd Inc", address := none, phone := none,
         email := some "c@d.co", tax_id := none, account_number := none })
      = (partyEmails bothPartiesText)[1]? := by
  have h := positional_contact_attachment bothPartiesText
    { name := some "Ab Co.", address := none, phone := none,
      email := some "a@b.co", tax_id := none, account_number := none }
    { name := some "Cd Inc", address := none, phone := none,
      email := some "c@d.co", tax_id := none, account_number := none }
    (by decide) (by decide)
  exact ⟨h.1, h.2.2.2.2.1⟩

/-- C9: a populated party record always carries a name: the extractor
constructs a `PartyInfo` only after the resolved name passed a truthiness
check, so `service_provider = some p` implies `p.name` is present, and
likewise for the customer. -/
theorem party_name_present (text : String) :
    (∀ p, (extract_parties text).service_provider = some p →
       p.name.isSome = true) ∧
    (∀ c, (extract_parties text).customer = some c →
       c.name.isSome = true) := by
  constructor
  · intro p hp
    have hp' : spRecordOf text = some p := hp
    unfold spRecordOf at hp'
    by_cases h1 : truthyStr (spNameOf text)
    · simp only [h1, if_pos] at hp'
      rw [Option.some.injEq] at hp'
      subst hp'
      exact truthyStr_isSome h1
    · simp [h1] at hp'
  · intro c hc
    have hc' : custRecordOf text = some c := hc
    unfold custRecordOf at hc'
    by_cases h2 : truthyStr (custNameOf text (spNameOf text))
    · simp only [h2, if_pos] at hc'
      rw [Option.some.injEq] at hc'
      subst hc'
      exact truthyStr_isSome h2
    · simp [h2] at hc'

/-- C9 (witness): on `bothPartiesText` both parties are populated, and both
names are present. -/
theorem party_name_present_witness :
    (PartyInfo.name
       { name := some "Ab Co.", address := none, phone := none,
         email := some "a@b.co", tax_id := none, account_number := none }).isSome = true ∧
    (PartyInfo.name
       { name := some "Cd Inc", address := none, phone := none,
         email := some "c@d.co", tax_id := none, account_number := none }).isSome = true :=
  ⟨(party_name_present bothPartiesText).1 _ (by decide),
   (party_name_present bothPartiesText).2 _ (by decide)⟩

/-- C10: the confidence score never reads `revenue_classification`: two
records that agree on every other field receive the same score whatever
their revenue classifications are. -/
theorem score_ignores_revenue_classification
    (p : Option Parties) (a : Option AccountInfo)
    (f : Option FinancialDetails) (pay : Option PaymentStructure)
    (s : Option SLATerms) (rc rc' : Option RevenueClassification) :
    calculate_confidence_score
      { parties := p, account_info := a, financial_details := f,
        payment_structure := pay, revenue_classification := rc,
        sla_terms := s } =
    calculate_confidence_score
      { parties := p, account_info := a, financial_details := f,
        payment_structure := pay, revenue_classification := rc',
        sla_terms := s } := rfl
